import Mathlib

/-!
Verification of the expression-evaluator core of the calculator service
(`app/calculator.py`).  The development embeds the module shallowly:

* Python floats are modelled by `PFloat`: an exact rational for finite
  values, the two infinities, NaN, and an opaque `approx` constructor for
  finite results of transcendental library calls whose exact value the
  model does not track.  Arithmetic on finite values is modelled exactly
  over `ℚ`; every concrete input appearing in a theorem below is small
  enough that IEEE double arithmetic computes it exactly, so the model and
  the code agree on those inputs.
* Python exceptions are modelled by `PyExc`; the `try/except` ladder at
  the bottom of `evaluate_expression` is modelled by `handleExc`.
* The call to the host `eval` is modelled by a tokenizer, a
  recursive-descent parser with Python's precedence, and an AST
  evaluator over Python values (`Value`), restricted to the names that the
  sanitized namespace `{"math": math, "abs": abs}` can resolve.
-/

deriving instance DecidableEq for Except

namespace Calculator

/-- Model of a Python float: an exact rational, one of the two infinities,
NaN, or an untracked finite value produced by a transcendental library
call (`approx`).  The sign and magnitude of `approx` values are not
tracked; no theorem in this development depends on them. -/
inductive PFloat where
  | finite (q : ℚ)
  | inf
  | neginf
  | nan
  | approx
deriving DecidableEq, Repr

/-- Python `==` on two float values: NaN compares unequal to everything,
including itself.  Comparisons involving untracked `approx` values are
undetermined (`none`). -/
def pyFloatEq : PFloat → PFloat → Option Bool
  | .nan, _ => some false
  | _, .nan => some false
  | .approx, _ => none
  | _, .approx => none
  | .inf, .inf => some true
  | .neginf, .neginf => some true
  | .inf, _ => some false
  | _, .inf => some false
  | .neginf, _ => some false
  | _, .neginf => some false
  | .finite a, .finite b => some (a == b)

/-- Python `x == 0` on a float. -/
def pfIsZero : PFloat → Bool
  | .finite q => q == 0
  | _ => false

/-- Python `x < 0` on a float (false for NaN; `approx` values never occur
as inputs of the primitives, which is the only place this is used). -/
def pfLtZero : PFloat → Bool
  | .finite q => decide (q < 0)
  | .neginf => true
  | _ => false

def pfIsInf : PFloat → Bool
  | .inf => true
  | .neginf => true
  | _ => false

/-- IEEE addition on the model.  Finite sums are exact (no rounding or
overflow is modelled; all finite sums appearing in theorems are exactly
representable doubles). -/
def pfAdd : PFloat → PFloat → PFloat
  | .nan, _ => .nan
  | _, .nan => .nan
  | .inf, .neginf => .nan
  | .neginf, .inf => .nan
  | .inf, _ => .inf
  | _, .inf => .inf
  | .neginf, _ => .neginf
  | _, .neginf => .neginf
  | .approx, _ => .approx
  | _, .approx => .approx
  | .finite a, .finite b => .finite (a + b)

def pfNeg : PFloat → PFloat
  | .finite q => .finite (-q)
  | .inf => .neginf
  | .neginf => .inf
  | .nan => .nan
  | .approx => .approx

/-- IEEE subtraction, as addition of the negation. -/
def pfSub (a b : PFloat) : PFloat := pfAdd a (pfNeg b)

/-- IEEE multiplication on the model.  `inf * 0` is NaN; products of an
infinity with an untracked `approx` value are themselves untracked. -/
def pfMul : PFloat → PFloat → PFloat
  | .nan, _ => .nan
  | _, .nan => .nan
  | .inf, .inf => .inf
  | .inf, .neginf => .neginf
  | .neginf, .inf => .neginf
  | .neginf, .neginf => .inf
  | .inf, .finite q => if q = 0 then .nan else if 0 < q then .inf else .neginf
  | .finite q, .inf => if q = 0 then .nan else if 0 < q then .inf else .neginf
  | .neginf, .finite q => if q = 0 then .nan else if 0 < q then .neginf else .inf
  | .finite q, .neginf => if q = 0 then .nan else if 0 < q then .neginf else .inf
  | .inf, .approx => .approx
  | .approx, .inf => .approx
  | .neginf, .approx => .approx
  | .approx, .neginf => .approx
  | .approx, .approx => .approx
  | .approx, .finite q => if q = 0 then .finite 0 else .approx
  | .finite q, .approx => if q = 0 then .finite 0 else .approx
  | .finite a, .finite b => .finite (a * b)

/-- IEEE division for a nonzero divisor (zero divisors raise
`ZeroDivisionError` in Python and are guarded before this is called;
the `finite _ / finite 0` case is unreachable). -/
def pfDiv : PFloat → PFloat → PFloat
  | .nan, _ => .nan
  | _, .nan => .nan
  | .inf, .inf => .nan
  | .inf, .neginf => .nan
  | .neginf, .inf => .nan
  | .neginf, .neginf => .nan
  | .inf, .finite q => if 0 ≤ q then .inf else .neginf
  | .neginf, .finite q => if 0 ≤ q then .neginf else .inf
  | .inf, .approx => .approx
  | .neginf, .approx => .approx
  | .approx, .inf => .finite 0
  | .approx, .neginf => .finite 0
  | .finite _, .inf => .finite 0
  | .finite _, .neginf => .finite 0
  | .approx, .finite _ => .approx
  | .finite _, .approx => .approx
  | .approx, .approx => .approx
  | .finite a, .finite b => .finite (a / b)

def pfAbs : PFloat → PFloat
  | .finite q => .finite |q|
  | .inf => .inf
  | .neginf => .inf
  | .nan => .nan
  | .approx => .approx

/-- Floor-style remainder on exact rationals; this is the mathematical
content of Python's `%` on floats (the result takes the divisor's sign). -/
def ratMod (a b : ℚ) : ℚ := a - b * (⌊a / b⌋ : ℚ)

/-- Python `a % b` on floats for a nonzero divisor. -/
def pfMod : PFloat → PFloat → PFloat
  | .nan, _ => .nan
  | _, .nan => .nan
  | .inf, _ => .nan
  | .neginf, _ => .nan
  | .approx, _ => .approx
  | _, .approx => .approx
  | .finite a, .inf => if 0 ≤ a then .finite a else .inf
  | .finite a, .neginf => if a ≤ 0 then .finite a else .neginf
  | .finite a, .finite b => .finite (ratMod a b)

/-- Exact rational square root, when it exists (used to model the cases
in which the host square root is exact). -/
def ratSqrt (q : ℚ) : Option ℚ :=
  let n := Nat.sqrt q.num.toNat
  let d := Nat.sqrt q.den
  if n * n = q.num.toNat ∧ d * d = q.den then some ((n : ℚ) / (d : ℚ)) else none

/-- The smallest positive rational that overflows an IEEE double under
round-to-nearest-even; values at or beyond it convert to infinity (for
float literals) or raise `OverflowError` (for int-to-float conversion). -/
def overflowBound : ℚ := ((2 ^ 1024 - 2 ^ 970 : ℕ) : ℚ)

/-- Conversion of an exact rational to a double, tracking only overflow to
the infinities (in-range values are kept exact). -/
def floatOfRat (q : ℚ) : PFloat :=
  if overflowBound ≤ q then .inf
  else if q ≤ -overflowBound then .neginf
  else .finite q

/-- Model of the Python exceptions that can arise while evaluating the
sanitized expression, each carrying the text of `str(e)`.  `calcError`
models a `CalculatorError` raised inside the `try` block of
`evaluate_expression` (the post-evaluation infinity/NaN guards). -/
inductive PyExc where
  | zeroDivisionError (msg : String)
  | valueError (msg : String)
  | typeError (msg : String)
  | syntaxError (msg : String)
  | nameError (msg : String)
  | attributeError (msg : String)
  | overflowError (msg : String)
  | calcError (msg : String)
deriving DecidableEq, Repr

/-- The custom exception type of the module; it carries only a message. -/
structure CalculatorError where
  message : String
deriving DecidableEq, Repr

/-- An ASCII apostrophe, used when rebuilding Python error messages. -/
def apos : String := String.mk [Char.ofNat 39]

/-- A string wrapped in apostrophes, as Python reprs names in messages. -/
def quoted (s : String) : String := apos ++ s ++ apos

/-- The `except` ladder at the bottom of `evaluate_expression`:
`ZeroDivisionError` gets a fixed message, `(ValueError, TypeError,
SyntaxError)` are reported as `"Invalid expression: ..."`, and every other
exception — including a `CalculatorError` raised by the guards inside the
`try` block — is reported as `"Error evaluating expression: ..."`. -/
def handleExc : PyExc → CalculatorError
  | .zeroDivisionError _ => ⟨"Division by zero in expression"⟩
  | .valueError m => ⟨"Invalid expression: " ++ m⟩
  | .typeError m => ⟨"Invalid expression: " ++ m⟩
  | .syntaxError m => ⟨"Invalid expression: " ++ m⟩
  | .nameError m => ⟨"Error evaluating expression: " ++ m⟩
  | .attributeError m => ⟨"Error evaluating expression: " ++ m⟩
  | .overflowError m => ⟨"Error evaluating expression: " ++ m⟩
  | .calcError m => ⟨"Error evaluating expression: " ++ m⟩

/-- The callables reachable from the sanitized namespace
`{"math": math, "abs": abs}` given the letters the character check lets
through (`log2` and `log10` arise from `log` followed by digits). -/
inductive Fn where
  | absB
  | fsqrt
  | flog
  | flog2
  | flog10
  | fsin
  | fcos
  | ftan
deriving DecidableEq, Repr

/-- Model of the Python values an evaluated sub-expression can produce:
ints, floats, the `math` module object, a callable, or a complex number
(produced by `**` on a negative base with a fractional exponent; its
components are not tracked). -/
inductive Value where
  | int (n : ℤ)
  | float (f : PFloat)
  | module
  | fn (f : Fn)
  | complexv
deriving DecidableEq, Repr

/-- Python int-to-float conversion: raises `OverflowError` beyond the
double range. -/
def intToFloat (n : ℤ) : Except PyExc PFloat :=
  if overflowBound ≤ |(n : ℚ)| then
    .error (.overflowError "int too large to convert to float")
  else .ok (.finite (n : ℚ))

/-- Numeric coercion to float, as performed by Python's mixed arithmetic
and by the one-argument `math` functions. -/
def toFloatV : Value → Except PyExc PFloat
  | .int n => intToFloat n
  | .float f => .ok f
  | .complexv => .error (.typeError "cannot convert complex to float")
  | _ => .error (.typeError "must be real number, not module or function")

/-- `math.sqrt`: `ValueError` on negative arguments, exact result when the
argument has an exact rational square root, an untracked finite value
otherwise. -/
def mathSqrtP : PFloat → Except PyExc PFloat
  | .finite q =>
    if q < 0 then .error (.valueError "math domain error")
    else
      match ratSqrt q with
      | some r => .ok (.finite r)
      | none => .ok .approx
  | .inf => .ok .inf
  | .neginf => .error (.valueError "math domain error")
  | .nan => .ok .nan
  | .approx => .ok .approx

/-- `math.log` and its base-2/base-10 variants: `ValueError` outside the
positive reals, exact `0.0` at `1`, untracked otherwise. -/
def mathLogP : PFloat → Except PyExc PFloat
  | .finite q =>
    if q ≤ 0 then .error (.valueError "math domain error")
    else if q = 1 then .ok (.finite 0)
    else .ok .approx
  | .inf => .ok .inf
  | .neginf => .error (.valueError "math domain error")
  | .nan => .ok .nan
  | .approx => .ok .approx

/-- `math.sin`, `math.cos`, `math.tan`: `ValueError` at the infinities,
exact at `0`, untracked otherwise (`zeroVal` is the value at `0`). -/
def mathTrigP (zeroVal : ℚ) : PFloat → Except PyExc PFloat
  | .finite q => if q = 0 then .ok (.finite zeroVal) else .ok .approx
  | .inf => .error (.valueError "math domain error")
  | .neginf => .error (.valueError "math domain error")
  | .nan => .ok .nan
  | .approx => .ok .approx

/-- Python's binary `**` on values already coerced to float (also used by
the `power` primitive, whose body is `base ** exponent`).  A negative base
with a fractional exponent yields a complex number; overflow of an exact
result raises `OverflowError`, as the host `float.__pow__` does. -/
def pfPowF (b e : PFloat) : Except PyExc Value :=
  match e with
  | .finite q =>
    if q = 0 then .ok (.float (.finite 1))
    else
      match b with
      | .finite p =>
        if q.den = 1 then
          if p = 0 ∧ q.num < 0 then
            .error (.zeroDivisionError "zero cannot be raised to a negative power")
          else
            let r := p ^ q.num
            if overflowBound ≤ |r| then
              .error (.overflowError "math range error")
            else .ok (.float (.finite r))
        else
          if p < 0 then .ok .complexv
          else if p = 0 then
            if q < 0 then
              .error (.zeroDivisionError "zero cannot be raised to a negative power")
            else .ok (.float (.finite 0))
          else if p = 1 then .ok (.float (.finite 1))
          else .ok (.float .approx)
      | .inf => if 0 < q then .ok (.float .inf) else .ok (.float (.finite 0))
      | .neginf =>
        if 0 < q then
          if q.den = 1 ∧ q.num % 2 ≠ 0 then .ok (.float .neginf)
          else .ok (.float .inf)
        else .ok (.float (.finite 0))
      | .nan => .ok (.float .nan)
      | .approx => .ok (.float .approx)
  | .nan =>
    match b with
    | .finite p => if p = 1 then .ok (.float (.finite 1)) else .ok (.float .nan)
    | _ => .ok (.float .nan)
  | .inf =>
    match b with
    | .finite p =>
      if p = 1 ∨ p = -1 then .ok (.float (.finite 1))
      else if |p| < 1 then .ok (.float (.finite 0))
      else .ok (.float .inf)
    | .inf => .ok (.float .inf)
    | .neginf => .ok (.float .inf)
    | .nan => .ok (.float .nan)
    | .approx => .ok (.float .approx)
  | .neginf =>
    match b with
    | .finite p =>
      if p = 1 ∨ p = -1 then .ok (.float (.finite 1))
      else if |p| < 1 then .ok (.float .inf)
      else .ok (.float (.finite 0))
    | .inf => .ok (.float (.finite 0))
    | .neginf => .ok (.float (.finite 0))
    | .nan => .ok (.float .nan)
    | .approx => .ok (.float .approx)
  | .approx => .ok (.float .approx)

/-- `add(a, b) = a + b`. -/
def add (a b : PFloat) : PFloat := pfAdd a b

/-- `subtract(a, b) = a - b`. -/
def subtract (a b : PFloat) : PFloat := pfSub a b

/-- `multiply(a, b) = a * b`. -/
def multiply (a b : PFloat) : PFloat := pfMul a b

/-- `divide(a, b)`: guards a zero divisor, then divides. -/
def divide (a b : PFloat) : Except PyExc PFloat :=
  if pfIsZero b then .error (.calcError "Division by zero is not allowed")
  else .ok (pfDiv a b)

/-- `power(base, exponent)`: computes `base ** exponent`; only
`OverflowError` is caught and turned into a `CalculatorError`, while the
infinity/NaN guards raise `CalculatorError` directly (their `raise` sits
inside a `try` that catches only `OverflowError`, so it escapes as
intended here, unlike in `evaluate_expression`). -/
def power (base exponent : PFloat) : Except PyExc PFloat :=
  match pfPowF base exponent with
  | .error (.overflowError _) => .error (.calcError "Number too large to represent")
  | .error e => .error e
  | .ok (.float f) =>
    if pfIsInf f then .error (.calcError "Result is infinity")
    else if f = .nan then .error (.calcError "Invalid operation resulting in NaN")
    else .ok f
  | .ok .complexv => .error (.typeError "cannot convert complex to float")
  | .ok _ => .error (.typeError "unexpected operand")

/-- `square_root(n)`: guards negative inputs, then calls `math.sqrt`. -/
def square_root (n : PFloat) : Except PyExc PFloat :=
  if pfLtZero n then
    .error (.calcError "Cannot calculate square root of negative number")
  else mathSqrtP n

/-- `modulus(a, b)`: guards a zero divisor, then computes `a % b`. -/
def modulus (a b : PFloat) : Except PyExc PFloat :=
  if pfIsZero b then .error (.calcError "Modulus by zero is not allowed")
  else .ok (pfMod a b)

/-- Tokens of the restricted Python expression grammar reachable after
sanitization: numbers, identifiers, the arithmetic operators, `**`,
parentheses and the attribute dot. -/
inductive Tok where
  | num (s : List Char)
  | name (s : List Char)
  | plus
  | minus
  | star
  | dstar
  | slash
  | lparen
  | rparen
  | dot
deriving DecidableEq, Repr

def isNameChar (c : Char) : Bool := c.isAlpha || c.isDigit

/-- Tokenizer for the evaluated string (fuelled; the fuel is one more than
the character count, and every step consumes at least one character). -/
def tokenize : Nat → List Char → Except PyExc (List Tok)
  | 0, _ => .error (.syntaxError "tokenizer ran out of fuel")
  | _, [] => .ok []
  | fuel + 1, c :: cs =>
    if c = ' ' ∨ c = '\t' then tokenize fuel cs
    else if c.isDigit then
      let ds := List.takeWhile Char.isDigit (c :: cs)
      let rest := List.dropWhile Char.isDigit (c :: cs)
      match rest with
      | '.' :: r2 => do
        let fs := List.takeWhile Char.isDigit r2
        let r3 := List.dropWhile Char.isDigit r2
        let ts ← tokenize fuel r3
        .ok (Tok.num (ds ++ '.' :: fs) :: ts)
      | _ => do
        let ts ← tokenize fuel rest
        .ok (Tok.num ds :: ts)
    else if c = '.' then
      if cs.head?.elim false Char.isDigit then do
        let fs := List.takeWhile Char.isDigit cs
        let r2 := List.dropWhile Char.isDigit cs
        let ts ← tokenize fuel r2
        .ok (Tok.num ('.' :: fs) :: ts)
      else do
        let ts ← tokenize fuel cs
        .ok (Tok.dot :: ts)
    else if c.isAlpha then do
      let nm := List.takeWhile isNameChar (c :: cs)
      let rest := List.dropWhile isNameChar (c :: cs)
      let ts ← tokenize fuel rest
      .ok (Tok.name nm :: ts)
    else if c = '+' then do
      let ts ← tokenize fuel cs
      .ok (Tok.plus :: ts)
    else if c = '-' then do
      let ts ← tokenize fuel cs
      .ok (Tok.minus :: ts)
    else if c = '*' then
      match cs with
      | '*' :: r2 => do
        let ts ← tokenize fuel r2
        .ok (Tok.dstar :: ts)
      | _ => do
        let ts ← tokenize fuel cs
        .ok (Tok.star :: ts)
    else if c = '/' then do
      let ts ← tokenize fuel cs
      .ok (Tok.slash :: ts)
    else if c = '(' then do
      let ts ← tokenize fuel cs
      .ok (Tok.lparen :: ts)
    else if c = ')' then do
      let ts ← tokenize fuel cs
      .ok (Tok.rparen :: ts)
    else .error (.syntaxError "invalid character in expression")

def digitsToNat (ds : List Char) : ℕ :=
  ds.foldl (fun acc c => 10 * acc + (c.toNat - 48)) 0

/-- Conversion of a numeric literal, performed at compile time by the
host: a literal containing a dot becomes a float (overflowing to
infinity), a plain digit string becomes an int, with Python 3's ban on
leading zeros in nonzero decimal integer literals. -/
def numValue (s : List Char) : Except PyExc Value :=
  if s.contains '.' then
    let ip := s.takeWhile (fun c => c != '.')
    let fp := (s.dropWhile (fun c => c != '.')).drop 1
    let q : ℚ := (digitsToNat ip : ℚ) + (digitsToNat fp : ℚ) / (10 : ℚ) ^ fp.length
    .ok (.float (floatOfRat q))
  else
    if s.head? = some '0' ∧ s.any (fun c => c != '0') then
      .error (.syntaxError "leading zeros in decimal integer literals are not permitted")
    else .ok (.int (digitsToNat s))

/-- Abstract syntax of the evaluated expressions. -/
inductive PExpr where
  | lit (v : Value)
  | nameE (s : List Char)
  | attr (e : PExpr) (field : List Char)
  | call (f : PExpr) (arg : PExpr)
  | neg (e : PExpr)
  | pos (e : PExpr)
  | addE (a b : PExpr)
  | subE (a b : PExpr)
  | mulE (a b : PExpr)
  | divE (a b : PExpr)
  | powE (a b : PExpr)
deriving DecidableEq, Repr

mutual

/-- `expr := term (('+' | '-') term)*`, left associative. -/
def parseExpr : Nat → List Tok → Except PyExc (PExpr × List Tok)
  | 0, _ => .error (.syntaxError "expression nesting too deep")
  | fuel + 1, ts => do
    let (e, ts1) ← parseTerm fuel ts
    parseExprRest fuel e ts1

def parseExprRest : Nat → PExpr → List Tok → Except PyExc (PExpr × List Tok)
  | 0, _, _ => .error (.syntaxError "expression nesting too deep")
  | fuel + 1, acc, .plus :: ts => do
    let (e, ts1) ← parseTerm fuel ts
    parseExprRest fuel (.addE acc e) ts1
  | fuel + 1, acc, .minus :: ts => do
    let (e, ts1) ← parseTerm fuel ts
    parseExprRest fuel (.subE acc e) ts1
  | _ + 1, acc, ts => .ok (acc, ts)

/-- `term := factor (('*' | '/') factor)*`, left associative. -/
def parseTerm : Nat → List Tok → Except PyExc (PExpr × List Tok)
  | 0, _ => .error (.syntaxError "expression nesting too deep")
  | fuel + 1, ts => do
    let (e, ts1) ← parseFactor fuel ts
    parseTermRest fuel e ts1

def parseTermRest : Nat → PExpr → List Tok → Except PyExc (PExpr × List Tok)
  | 0, _, _ => .error (.syntaxError "expression nesting too deep")
  | fuel + 1, acc, .star :: ts => do
    let (e, ts1) ← parseFactor fuel ts
    parseTermRest fuel (.mulE acc e) ts1
  | fuel + 1, acc, .slash :: ts => do
    let (e, ts1) ← parseFactor fuel ts
    parseTermRest fuel (.divE acc e) ts1
  | _ + 1, acc, ts => .ok (acc, ts)

/-- `factor := ('+' | '-') factor | power`; unary minus binds looser than
`**`, as in Python (`-2**2 = -4`). -/
def parseFactor : Nat → List Tok → Except PyExc (PExpr × List Tok)
  | 0, _ => .error (.syntaxError "expression nesting too deep")
  | fuel + 1, .minus :: ts => do
    let (e, ts1) ← parseFactor fuel ts
    .ok (.neg e, ts1)
  | fuel + 1, .plus :: ts => do
    let (e, ts1) ← parseFactor fuel ts
    .ok (.pos e, ts1)
  | fuel + 1, ts => parsePower fuel ts

/-- `power := primary ('**' factor)?`; the right operand re-enters
`factor`, which makes `**` right associative and lets it take a signed
exponent. -/
def parsePower : Nat → List Tok → Except PyExc (PExpr × List Tok)
  | 0, _ => .error (.syntaxError "expression nesting too deep")
  | fuel + 1, ts => do
    let (b, ts1) ← parsePrimary fuel ts
    match ts1 with
    | .dstar :: ts2 => do
      let (e, ts3) ← parseFactor fuel ts2
      .ok (.powE b e, ts3)
    | _ => .ok (b, ts1)

/-- `primary := atom trailer*` with attribute and call trailers. -/
def parsePrimary : Nat → List Tok → Except PyExc (PExpr × List Tok)
  | 0, _ => .error (.syntaxError "expression nesting too deep")
  | fuel + 1, ts => do
    let (a, ts1) ← parseAtom fuel ts
    parseTrailers fuel a ts1

def parseTrailers : Nat → PExpr → List Tok → Except PyExc (PExpr × List Tok)
  | 0, _, _ => .error (.syntaxError "expression nesting too deep")
  | fuel + 1, acc, .dot :: .name s :: ts => parseTrailers fuel (.attr acc s) ts
  | fuel + 1, acc, .lparen :: ts => do
    let (e, ts1) ← parseExpr fuel ts
    match ts1 with
    | .rparen :: ts2 => parseTrailers fuel (.call acc e) ts2
    | _ => .error (.syntaxError "expected closing parenthesis")
  | _ + 1, acc, ts => .ok (acc, ts)

def parseAtom : Nat → List Tok → Except PyExc (PExpr × List Tok)
  | 0, _ => .error (.syntaxError "expression nesting too deep")
  | _ + 1, .num s :: ts => do
    let v ← numValue s
    .ok (.lit v, ts)
  | _ + 1, .name s :: ts => .ok (.nameE s, ts)
  | fuel + 1, .lparen :: ts => do
    let (e, ts1) ← parseExpr fuel ts
    match ts1 with
    | .rparen :: ts2 => .ok (e, ts2)
    | _ => .error (.syntaxError "expected closing parenthesis")
  | _ + 1, _ => .error (.syntaxError "invalid syntax")

end

/-- Compilation of a token stream to an AST; trailing tokens after a full
expression are a syntax error. -/
def parseProgram (ts : List Tok) : Except PyExc PExpr := do
  let (e, rest) ← parseExpr (16 * (ts.length + 1)) ts
  match rest with
  | [] => .ok e
  | _ => .error (.syntaxError "invalid syntax")

/-- Name lookup in the sanitized namespace
`{"__builtins__": {}, "math": math, "abs": abs}`. -/
def lookupName (s : List Char) : Except PyExc Value :=
  if s = "math".toList then .ok .module
  else if s = "abs".toList then .ok (.fn .absB)
  else .error (.nameError ("name " ++ quoted (String.mk s) ++ " is not defined"))

/-- Attribute access; only the `math` module exposes the attributes
reachable through the character filter. -/
def getAttr (v : Value) (field : List Char) : Except PyExc Value :=
  match v with
  | .module =>
    if field = "sqrt".toList then .ok (.fn .fsqrt)
    else if field = "log".toList then .ok (.fn .flog)
    else if field = "log2".toList then .ok (.fn .flog2)
    else if field = "log10".toList then .ok (.fn .flog10)
    else if field = "sin".toList then .ok (.fn .fsin)
    else if field = "cos".toList then .ok (.fn .fcos)
    else if field = "tan".toList then .ok (.fn .ftan)
    else
      .error (.attributeError ("module " ++ quoted "math" ++
        " has no attribute " ++ quoted (String.mk field)))
  | _ =>
    .error (.attributeError ("object has no attribute " ++ quoted (String.mk field)))

/-- Application of one of the reachable callables to an argument. -/
def applyFn (f : Fn) (v : Value) : Except PyExc Value :=
  match f with
  | .absB =>
    match v with
    | .int n => .ok (.int |n|)
    | .float x => .ok (.float (pfAbs x))
    | .complexv => .ok (.float .approx)
    | _ => .error (.typeError "bad operand type for abs()")
  | .fsqrt => do
    let x ← toFloatV v
    let r ← mathSqrtP x
    .ok (.float r)
  | .flog => do
    let x ← toFloatV v
    let r ← mathLogP x
    .ok (.float r)
  | .flog2 => do
    let x ← toFloatV v
    let r ← mathLogP x
    .ok (.float r)
  | .flog10 => do
    let x ← toFloatV v
    let r ← mathLogP x
    .ok (.float r)
  | .fsin => do
    let x ← toFloatV v
    let r ← mathTrigP 0 x
    .ok (.float r)
  | .fcos => do
    let x ← toFloatV v
    let r ← mathTrigP 1 x
    .ok (.float r)
  | .ftan => do
    let x ← toFloatV v
    let r ← mathTrigP 0 x
    .ok (.float r)

def applyCall (f arg : Value) : Except PyExc Value :=
  match f with
  | .fn g => applyFn g arg
  | _ => .error (.typeError "object is not callable")

inductive BinOp where
  | addO
  | subO
  | mulO
  | divO
  | powO
deriving DecidableEq, Repr

def isNumeric : Value → Bool
  | .int _ => true
  | .float _ => true
  | _ => false

/-- Python's binary arithmetic on values: int-int stays exact integer
arithmetic (`/` is true division and `**` with a negative exponent gives a
float); anything involving a float coerces to float; complex operands keep
the result complex; non-numeric operands raise `TypeError`. -/
def evalBin (op : BinOp) (v1 v2 : Value) : Except PyExc Value :=
  match v1, v2 with
  | .int a, .int b =>
    match op with
    | .addO => .ok (.int (a + b))
    | .subO => .ok (.int (a - b))
    | .mulO => .ok (.int (a * b))
    | .divO =>
      if b = 0 then .error (.zeroDivisionError "division by zero")
      else
        let q : ℚ := (a : ℚ) / (b : ℚ)
        if overflowBound ≤ |q| then
          .error (.overflowError "integer division result too large for a float")
        else .ok (.float (.finite q))
    | .powO =>
      if 0 ≤ b then .ok (.int (a ^ b.toNat))
      else if a = 0 then
        .error (.zeroDivisionError "zero cannot be raised to a negative power")
      else .ok (.float (.finite (1 / (a : ℚ) ^ b.natAbs)))
  | _, _ =>
    if v1 = .complexv ∨ v2 = .complexv then
      if (isNumeric v1 || v1 == .complexv) && (isNumeric v2 || v2 == .complexv) then
        match op, v2 with
        | .divO, .int 0 => .error (.zeroDivisionError "complex division by zero")
        | .divO, .float f =>
          if pfIsZero f then .error (.zeroDivisionError "complex division by zero")
          else .ok .complexv
        | _, _ => .ok .complexv
      else .error (.typeError "unsupported operand type(s)")
    else do
      let f1 ← toFloatV v1
      let f2 ← toFloatV v2
      match op with
      | .addO => .ok (.float (pfAdd f1 f2))
      | .subO => .ok (.float (pfSub f1 f2))
      | .mulO => .ok (.float (pfMul f1 f2))
      | .divO =>
        if pfIsZero f2 then .error (.zeroDivisionError "float division by zero")
        else .ok (.float (pfDiv f1 f2))
      | .powO => pfPowF f1 f2

def evalNeg (v : Value) : Except PyExc Value :=
  match v with
  | .int n => .ok (.int (-n))
  | .float f => .ok (.float (pfNeg f))
  | .complexv => .ok .complexv
  | _ => .error (.typeError "bad operand type for unary minus")

def evalPos (v : Value) : Except PyExc Value :=
  match v with
  | .int n => .ok (.int n)
  | .float f => .ok (.float f)
  | .complexv => .ok .complexv
  | _ => .error (.typeError "bad operand type for unary plus")

/-- Evaluation of a compiled expression, left to right as the host does. -/
def evalAst : PExpr → Except PyExc Value
  | .lit v => .ok v
  | .nameE s => lookupName s
  | .attr e s => do
    let v ← evalAst e
    getAttr v s
  | .call f a => do
    let vf ← evalAst f
    let va ← evalAst a
    applyCall vf va
  | .neg e => do
    let v ← evalAst e
    evalNeg v
  | .pos e => do
    let v ← evalAst e
    evalPos v
  | .addE a b => do
    let x ← evalAst a
    let y ← evalAst b
    evalBin .addO x y
  | .subE a b => do
    let x ← evalAst a
    let y ← evalAst b
    evalBin .subO x y
  | .mulE a b => do
    let x ← evalAst a
    let y ← evalAst b
    evalBin .mulO x y
  | .divE a b => do
    let x ← evalAst a
    let y ← evalAst b
    evalBin .divO x y
  | .powE a b => do
    let x ← evalAst a
    let y ← evalAst b
    evalBin .powO x y

/-- Model of `eval(safe_expression, safe_dict)`: tokenize, compile, run. -/
def pyEval (s : List Char) : Except PyExc Value := do
  let ts ← tokenize (s.length + 1) s
  let ast ← parseProgram ts
  evalAst ast

/-- The post-evaluation region inside the `try` block: `math.isinf` /
`math.isnan` checks (which convert an int result, possibly overflowing)
followed by `float(result)`.  The two guards raise `CalculatorError`
values that the surrounding `except Exception` will intercept. -/
def guardResult (v : Value) : Except PyExc PFloat :=
  match v with
  | .int n => intToFloat n
  | .float f =>
    if pfIsInf f then .error (.calcError "Result is infinity")
    else if f = .nan then .error (.calcError "Invalid operation resulting in NaN")
    else .ok f
  | .complexv => .error (.typeError "cannot convert complex to float")
  | _ => .error (.typeError "must be real number, not module or function")

/-- The whole `try` block of `evaluate_expression`. -/
def evalGuarded (s : List Char) : Except PyExc PFloat := do
  let v ← pyEval s
  guardResult v

/-- `expression.replace(" ", "")` — only the ASCII space is removed. -/
def stripSpaces (s : List Char) : List Char := s.filter (fun c => c != ' ')

/-- The character allow-list, written exactly as the source builds it:
`set("0123456789+-*/().**sqrt()log()sin()cos()tan()abs().")`. -/
def allowedChars : List Char :=
  "0123456789+-*/().**sqrt()log()sin()cos()tan()abs().".toList

def opChars : List Char := "+-*/()".toList

/-- `c in allowed_chars or c.isdigit() or c in "+-*/()"` (the host's
`isdigit` also accepts non-ASCII decimal digits; every character appearing
in this development is ASCII). -/
def charOk (c : Char) : Bool :=
  allowedChars.contains c || c.isDigit || opChars.contains c

def charCheckOk (s : List Char) : Bool := s.all charOk

def beginsWith : List Char → List Char → Bool
  | _, [] => true
  | [], _ :: _ => false
  | c :: cs, p :: ps => c == p && beginsWith cs ps

/-- `str.replace`: replace every non-overlapping occurrence of `pat`,
scanning left to right (fuelled; each step consumes a character). -/
def replaceAll : Nat → List Char → List Char → List Char → List Char
  | 0, s, _, _ => s
  | _, [], _, _ => []
  | fuel + 1, c :: cs, pat, rep =>
    if pat ≠ [] ∧ beginsWith (c :: cs) pat then
      rep ++ replaceAll fuel ((c :: cs).drop pat.length) pat rep
    else c :: replaceAll fuel cs pat rep

def pyReplace (s pat rep : List Char) : List Char :=
  replaceAll (s.length + 1) s pat rep

/-- The function-name substitution chain of `evaluate_expression`, in the
source's order (the final `abs`-to-`abs` replacement is the identity). -/
def substitute (e : List Char) : List Char :=
  let e1 := pyReplace e "sqrt".toList "math.sqrt".toList
  let e2 := pyReplace e1 "log".toList "math.log".toList
  let e3 := pyReplace e2 "sin".toList "math.sin".toList
  let e4 := pyReplace e3 "cos".toList "math.cos".toList
  let e5 := pyReplace e4 "tan".toList "math.tan".toList
  pyReplace e5 "abs".toList "abs".toList

/-- `evaluate_expression`: the full sanitize-and-evaluate pipeline.
Every exception produced inside the `try` block — including the
`CalculatorError` values raised by the infinity/NaN guards — passes
through the `except` ladder modelled by `handleExc`. -/
def evaluate_expression (expression : String) : Except CalculatorError PFloat :=
  if expression = "" then .error ⟨"Invalid expression"⟩
  else
    let expr := stripSpaces expression.toList
    if charCheckOk expr then
      if expr.count '(' ≠ expr.count ')' then .error ⟨"Unbalanced parentheses"⟩
      else
        match evalGuarded (substitute expr) with
        | .ok r => .ok r
        | .error e => .error (handleExc e)
    else .error ⟨"Expression contains invalid characters"⟩

/-- A float literal large enough to overflow to infinity when the host
compiles it: the digit `1` followed by 310 zeros, then `.0`. -/
def infLiteral : String := String.mk ('1' :: (List.replicate 310 '0' ++ ['.', '0']))

/-- An expression whose evaluation is `inf - inf`, i.e. NaN. -/
def nanExpr : String := infLiteral ++ "-" ++ infLiteral

set_option maxRecDepth 400000

set_option exponentiation.threshold 2000

/-- Branch lemma: an input that survives emptiness but fails the character
check is rejected with the invalid-characters message. -/
theorem eval_invalid_chars (s : String) (h1 : s ≠ "")
    (h2 : charCheckOk (stripSpaces s.toList) = false) :
    evaluate_expression s = .error ⟨"Expression contains invalid characters"⟩ := by
  have h2d : charCheckOk (stripSpaces s.data) = false := h2
  unfold evaluate_expression
  rw [if_neg h1]
  simp [h2d]

/-- Branch lemma: an input that survives the first three steps with an
unbalanced parenthesis count is rejected with the dedicated message. -/
theorem eval_unbalanced (s : String) (h1 : s ≠ "")
    (h2 : charCheckOk (stripSpaces s.toList) = true)
    (h3 : (stripSpaces s.toList).count '(' ≠ (stripSpaces s.toList).count ')') :
    evaluate_expression s = .error ⟨"Unbalanced parentheses"⟩ := by
  have h2d : charCheckOk (stripSpaces s.data) = true := h2
  have h3d : (stripSpaces s.data).count '(' ≠ (stripSpaces s.data).count ')' := h3
  unfold evaluate_expression
  rw [if_neg h1]
  simp [h2d, h3d]

/-- Branch lemma: an input that passes all the validation steps is handed
to the guarded evaluator, and any exception goes through `handleExc`. -/
theorem eval_step6 (s : String) (h1 : s ≠ "")
    (h2 : charCheckOk (stripSpaces s.toList) = true)
    (h3 : (stripSpaces s.toList).count '(' = (stripSpaces s.toList).count ')') :
    evaluate_expression s =
      match evalGuarded (substitute (stripSpaces s.toList)) with
      | .ok r => .ok r
      | .error e => .error (handleExc e) := by
  have h2d : charCheckOk (stripSpaces s.data) = true := h2
  have h3d : (stripSpaces s.data).count '(' = (stripSpaces s.data).count ')' := h3
  unfold evaluate_expression
  rw [if_neg h1]
  simp [h2d, h3d]

/-- The remainder is the divisor times the fractional part of the
quotient. -/
theorem ratMod_eq_mul_fract (a b : ℚ) (hb : b ≠ 0) :
    ratMod a b = b * Int.fract (a / b) := by
  unfold ratMod
  rw [← Int.self_sub_floor, mul_sub, mul_comm b (a / b), div_mul_cancel₀ _ hb]

/-- Claim C1 (code divergence): when the evaluated result is infinite or
NaN, the guard's `CalculatorError` is raised inside the `try` block and is
intercepted by the blanket `except Exception` handler, so the error that
reaches the caller carries the wrapped message
`"Error evaluating expression: Result is infinity"` (resp. `"... Invalid
operation resulting in NaN"`), not the bare guard message the claim
states.  `infLiteral` is a float literal that compiles to infinity, and
`nanExpr` evaluates `inf - inf`. -/
theorem claim1_guard_messages_are_wrapped :
    evaluate_expression infLiteral =
      .error ⟨"Error evaluating expression: Result is infinity"⟩ ∧
    evaluate_expression nanExpr =
      .error ⟨"Error evaluating expression: Invalid operation resulting in NaN"⟩ :=
  ⟨by with_unfolding_all rfl, by with_unfolding_all rfl⟩

/-- Claim C2 (counterexample): `^` is not in the character allow-list, so
`"2^3"` is rejected by the character check instead of evaluating to 8. -/
theorem claim2_caret_is_rejected :
    evaluate_expression "2^3" = .error ⟨"Expression contains invalid characters"⟩ ∧
    evaluate_expression "2^3" ≠ .ok (.finite 8) := by
  have h : evaluate_expression "2^3" =
      .error ⟨"Expression contains invalid characters"⟩ := by
    with_unfolding_all rfl
  exact ⟨h, by rw [h]; intro hc; cases hc⟩

/-- Claim C2 (amended): exponentiation is written `**` only; it evaluates
binary powers and associates right-to-left (`2**3**2 = 2**(3**2) = 512`). -/
theorem claim2_double_star_exponentiation :
    evaluate_expression "2**3" = .ok (.finite 8) ∧
    evaluate_expression "2**3**2" = .ok (.finite 512) :=
  ⟨by with_unfolding_all rfl, by with_unfolding_all rfl⟩

/-- Claim C3: `evaluate_expression` is total — every input produces either
a float or a `CalculatorError` — and every exception the guarded
evaluator raises surfaces to the caller as a `CalculatorError`. -/
theorem claim3_failures_become_calculator_errors :
    (∀ s : String,
      (∃ x, evaluate_expression s = .ok x) ∨
      (∃ m, evaluate_expression s = .error ⟨m⟩)) ∧
    (∀ (s : String) (e : PyExc),
      evalGuarded (substitute (stripSpaces s.toList)) = .error e →
      ∃ m, evaluate_expression s = .error ⟨m⟩) := by
  constructor
  · intro s
    cases h : evaluate_expression s with
    | ok x => exact Or.inl ⟨x, rfl⟩
    | error err => exact Or.inr ⟨err.message, rfl⟩
  · intro s e h
    by_cases h1 : s = ""
    · exact ⟨"Invalid expression", by rw [h1]; with_unfolding_all rfl⟩
    · by_cases h2 : charCheckOk (stripSpaces s.toList) = true
      · by_cases h3 : (stripSpaces s.toList).count '(' = (stripSpaces s.toList).count ')'
        · exact ⟨(handleExc e).message, by rw [eval_step6 s h1 h2 h3, h]⟩
        · exact ⟨"Unbalanced parentheses", eval_unbalanced s h1 h2 h3⟩
      · refine ⟨"Expression contains invalid characters", eval_invalid_chars s h1 ?_⟩
        cases hck : charCheckOk (stripSpaces s.toList) with
        | false => rfl
        | true => exact absurd hck h2

/-- Concrete instance of claim C3's conversion: `"5/0"` makes the raw
evaluator raise `ZeroDivisionError`, and the caller sees a
`CalculatorError`. -/
theorem claim3_failures_become_calculator_errors_witness :
    evalGuarded (substitute (stripSpaces ("5/0" : String).toList)) =
      .error (.zeroDivisionError "division by zero") ∧
    ∃ m, evaluate_expression "5/0" = .error ⟨m⟩ :=
  ⟨by with_unfolding_all rfl,
    claim3_failures_become_calculator_errors.2 "5/0"
      (.zeroDivisionError "division by zero") (by with_unfolding_all rfl)⟩

/-- Claim C4: the bare letter `"s"` (a character of `"sqrt"` that is not a
function-name token) passes the character check, and the eventual failure
is a later-stage `NameError`-derived message, not the invalid-characters
rejection. -/
theorem claim4_stray_letter_passes_char_check :
    charCheckOk (stripSpaces ("s" : String).toList) = true ∧
    ∃ m, evaluate_expression "s" = .error ⟨m⟩ ∧
      m ≠ "Expression contains invalid characters" :=
  ⟨by with_unfolding_all rfl,
    (handleExc (.nameError ("name " ++ quoted "s" ++ " is not defined"))).message,
    by with_unfolding_all rfl,
    by decide⟩

/-- Claim C5: the three example evaluations of the spec, plus the
substitution fact that `sqrt(16)` becomes `math.sqrt(16)` with the
parenthesized argument preserved. -/
theorem claim5_example_evaluations :
    evaluate_expression "2 + 3" = .ok (.finite 5) ∧
    evaluate_expression "(2 + 3) * 4" = .ok (.finite 20) ∧
    evaluate_expression "sqrt(16)" = .ok (.finite 4) ∧
    substitute ("sqrt(16)" : String).toList = ("math.sqrt(16)" : String).toList :=
  ⟨by with_unfolding_all rfl, by with_unfolding_all rfl,
    by with_unfolding_all rfl, by with_unfolding_all rfl⟩

/-- Claim C6: any input that passes the emptiness and character checks but
has differing `(` and `)` counts fails with "Unbalanced parentheses". -/
theorem claim6_unbalanced_parentheses (s : String) (h1 : s ≠ "")
    (h2 : charCheckOk (stripSpaces s.toList) = true)
    (h3 : (stripSpaces s.toList).count '(' ≠ (stripSpaces s.toList).count ')') :
    evaluate_expression s = .error ⟨"Unbalanced parentheses"⟩ :=
  eval_unbalanced s h1 h2 h3

/-- Witness for claim C6 at the spec's own example `"(2 + 3"`. -/
theorem claim6_unbalanced_parentheses_witness :
    ("(2 + 3" : String) ≠ "" ∧
    charCheckOk (stripSpaces ("(2 + 3" : String).toList) = true ∧
    (stripSpaces ("(2 + 3" : String).toList).count '(' ≠
      (stripSpaces ("(2 + 3" : String).toList).count ')' ∧
    evaluate_expression "(2 + 3" = .error ⟨"Unbalanced parentheses"⟩ :=
  ⟨by decide, by decide, by decide,
    claim6_unbalanced_parentheses "(2 + 3" (by decide) (by decide) (by decide)⟩

/-- Claim C7: `square_root` rejects every negative input with the claimed
message, and the round trip `square_root(power(5, 2))` returns 5. -/
theorem claim7_sqrt_domain_and_roundtrip :
    (∀ q : ℚ, q < 0 → square_root (.finite q) =
      .error (.calcError "Cannot calculate square root of negative number")) ∧
    (power (.finite 5) (.finite 2)).bind square_root = .ok (.finite 5) := by
  constructor
  · intro q hq
    have hlt : pfLtZero (.finite q) = true := by simp [pfLtZero, hq]
    simp [square_root, hlt]
  · with_unfolding_all rfl

/-- Witness for claim C7 at `n = -1`. -/
theorem claim7_sqrt_domain_and_roundtrip_witness :
    ((-1 : ℚ) < 0) ∧
    square_root (.finite (-1)) =
      .error (.calcError "Cannot calculate square root of negative number") :=
  ⟨by norm_num, claim7_sqrt_domain_and_roundtrip.1 (-1) (by norm_num)⟩

/-- Claim C8: `modulus` rejects a zero divisor with the claimed message,
matches the two sign-convention examples, and in general (finite inputs,
nonzero divisor) returns `ratMod`, whose value lies in `[0, b)` for a
positive divisor and in `(b, 0]` for a negative one — the sign follows the
divisor. -/
theorem claim8_modulus_sign_follows_divisor :
    (∀ a : PFloat, modulus a (.finite 0) =
      .error (.calcError "Modulus by zero is not allowed")) ∧
    modulus (.finite (-10)) (.finite 3) = .ok (.finite 2) ∧
    modulus (.finite 10) (.finite (-3)) = .ok (.finite (-2)) ∧
    (∀ a b : ℚ, b ≠ 0 →
      modulus (.finite a) (.finite b) = .ok (.finite (ratMod a b)) ∧
      (0 < b → 0 ≤ ratMod a b ∧ ratMod a b < b) ∧
      (b < 0 → b < ratMod a b ∧ ratMod a b ≤ 0)) := by
  refine ⟨fun a => rfl, by with_unfolding_all rfl, by with_unfolding_all rfl, ?_⟩
  intro a b hb
  have hz : pfIsZero (.finite b) = false := by simp [pfIsZero, hb]
  have hfr := ratMod_eq_mul_fract a b hb
  have h0 := Int.fract_nonneg (a / b)
  have h1 := Int.fract_lt_one (a / b)
  refine ⟨by simp [modulus, hz, pfMod], ?_, ?_⟩
  · intro hbp
    constructor
    · rw [hfr]; nlinarith
    · rw [hfr]; nlinarith
  · intro hbn
    constructor
    · rw [hfr]; nlinarith
    · rw [hfr]; nlinarith

/-- Witness for claim C8's universal parts at `a = 7`, `b = 3`. -/
theorem claim8_modulus_sign_follows_divisor_witness :
    ((3 : ℚ) ≠ 0) ∧
    (modulus (.finite 7) (.finite 3) = .ok (.finite (ratMod 7 3)) ∧
      (0 < (3 : ℚ) → 0 ≤ ratMod 7 3 ∧ ratMod 7 3 < 3) ∧
      ((3 : ℚ) < 0 → (3 : ℚ) < ratMod 7 3 ∧ ratMod 7 3 ≤ 0)) :=
  ⟨by norm_num, claim8_modulus_sign_follows_divisor.2.2.2 7 3 (by norm_num)⟩

/-- Claim C9 (counterexample): under the host's `==`, commutativity fails
for NaN inputs: `add(nan, 0.0)` and `add(0.0, nan)` are both NaN, and
`NaN == NaN` is false (likewise for `multiply`). -/
theorem claim9_nan_breaks_host_equality :
    pyFloatEq (add .nan (.finite 0)) (add (.finite 0) .nan) = some false ∧
    pyFloatEq (multiply .nan (.finite 1)) (multiply (.finite 1) .nan) = some false :=
  ⟨rfl, rfl⟩

/-- Claim C9 (amended): `add` and `multiply` are commutative as operations
on float values — both orders produce the identical value, NaN cases
included; only the `==` comparison form of the property fails on NaN. -/
theorem claim9_add_multiply_commute (a b : PFloat) :
    add a b = add b a ∧ multiply a b = multiply b a := by
  constructor
  · cases a <;> cases b <;> simp [add, pfAdd, add_comm]
  · cases a <;> cases b <;> simp [multiply, pfMul, mul_comm]

/-- Claim C10: whitespace stripping removes only the ASCII space, so a tab
or newline survives to the character check, which rejects it. -/
theorem claim10_tab_newline_rejected (s : String)
    (h : '\t' ∈ s.toList ∨ '\n' ∈ s.toList) :
    evaluate_expression s = .error ⟨"Expression contains invalid characters"⟩ := by
  have key : ∀ c : Char, c ∈ s.toList → charOk c = false → (c != ' ') = true →
      evaluate_expression s = .error ⟨"Expression contains invalid characters"⟩ := by
    intro c hcmem hbad hsp
    have hne : s ≠ "" := by
      intro he
      rw [he] at hcmem
      cases hcmem
    have hmem : c ∈ stripSpaces s.toList := List.mem_filter.mpr ⟨hcmem, hsp⟩
    have hfail : charCheckOk (stripSpaces s.toList) = false := by
      cases hck : charCheckOk (stripSpaces s.toList) with
      | false => rfl
      | true =>
        have := List.all_eq_true.mp hck c hmem
        rw [hbad] at this
        cases this
    exact eval_invalid_chars s hne hfail
  rcases h with hc | hc
  · exact key '\t' hc (by decide) (by decide)
  · exact key '\n' hc (by decide) (by decide)

/-- Witness for claim C10 at `"1\t2"`. -/
theorem claim10_tab_newline_rejected_witness :
    ('\t' ∈ ("1\t2" : String).toList ∨ '\n' ∈ ("1\t2" : String).toList) ∧
    evaluate_expression "1\t2" = .error ⟨"Expression contains invalid characters"⟩ :=
  ⟨Or.inl (by decide), claim10_tab_newline_rejected "1\t2" (Or.inl (by decide))⟩

end Calculator
